import Mathlib

/-!
Verification of `claude_token_refresh.py` (RavenStorm-bit/claude-token-refresh).

The script loads a JSON credential document, extracts an OAuth sub-object,
checks token expiry, performs one HTTP refresh call, merges the response into
the document, and writes a backup file followed by the primary file.

Shallow embedding notes:
* JSON values are modelled by the inductive `Json`; objects are association
  lists of string keys (Python dicts preserve one binding per key, which the
  `setFields` update respects).
* JSON numbers are modelled as `Int`: every number the claims touch
  (`expiresAt`, `expires_in`, epoch milliseconds) is integral in the source.
* Clock reads (`time.time() * 1000`) become explicit `Int` parameters; the
  expiry check and the merge read the clock separately, so `run` takes two
  time parameters.
* The HTTP exchange becomes an `Option TokenResponse` oracle parameter
  (`none` = non-200 status or transport failure).
* The two file writes become a two-slot `FileSystem` state (primary contents,
  backup contents) with explicit success flags for each write; the backup slot
  stands for the sibling path obtained from the primary path by replacing its
  last suffix with `.json.backup`.
* Console output and `datetime` formatting are not modelled (out of scope per
  the spec); a non-numeric `expiresAt` value, which would crash the Python
  run, is outside the model (theorems pin `expiresAt` to numeric-or-absent).
-/

namespace ClaudeTokenRefresh

/-- A JSON value.  Objects are association lists in insertion order. -/
inductive Json where
  | null : Json
  | bool (b : Bool) : Json
  | num (n : Int) : Json
  | str (s : String) : Json
  | arr (elems : List Json) : Json
  | obj (fields : List (String × Json)) : Json


/-- First binding of key `k` in an association list (Python `dict[k]` / `dict.get(k)`). -/
def lookupField (fields : List (String × Json)) (k : String) : Option Json :=
  (fields.find? (fun p => p.1 = k)).map Prod.snd

/-- Python `dict[k] = v`: replace the binding in place, or append a fresh one. -/
def setFields : List (String × Json) → String → Json → List (String × Json)
  | [], k, v => [(k, v)]
  | (k', v') :: rest, k, v =>
    if k' = k then (k, v) :: rest else (k', v') :: setFields rest k v

/-- `d[k]` on a JSON document; `none` when `d` is not an object or lacks `k`. -/
def Json.getKey? : Json → String → Option Json
  | .obj fields, k => lookupField fields k
  | _, _ => none

/-- Python `k in d` for a JSON document (only objects can contain keys here). -/
def Json.hasKey (j : Json) (k : String) : Bool :=
  (j.getKey? k).isSome

/-- `d[k] = v` on a JSON document (identity on non-objects, which the modelled
runs never reach). -/
def Json.setKey : Json → String → Json → Json
  | .obj fields, k, v => .obj (setFields fields k v)
  | j, _, _ => j

/-- Python truthiness of a JSON value (`if not x` tests in the source). -/
def pyTruthy : Json → Bool
  | .null => false
  | .bool b => b
  | .num n => n != 0
  | .str s => s != ""
  | .arr l => !l.isEmpty
  | .obj l => !l.isEmpty

/-- Python `str.split()` with no argument: split on whitespace runs,
discarding empty pieces. -/
def pySplitWs (s : String) : List String :=
  (s.split Char.isWhitespace).filter (fun t => t != "")

/-- The token-endpoint response body (`new_token_data` in the source), typed.
`organization` and `account` carry `(uuid, name)` and `(uuid, email_address)`. -/
structure TokenResponse where
  access_token : String
  refresh_token : Option String
  expires_in : Option Int
  scope : Option String
  organization : Option (String × String)
  account : Option (String × String)


/-- The OAuth key priority order probed by the source (`oauth_keys`). -/
def oauthKeys : List String := ["claudeAiOauth", "oauthAccount", "oauth"]

/-- The key `get_oauth_config` extracts: first key in priority order that is
present AND whose sub-object contains `refreshToken` (the loop continues past
a present key lacking `refreshToken`). -/
def extractedOauthKey (configData : Json) : Option String :=
  oauthKeys.find? (fun k =>
    ((configData.getKey? k).map (fun sub => sub.hasKey "refreshToken")).getD false)

/-- `get_oauth_config`: the extracted OAuth sub-object, if any. -/
def get_oauth_config (configData : Json) : Option Json :=
  (extractedOauthKey configData).bind configData.getKey?

/-- The key `update_config` resolves: first key in priority order that is
merely PRESENT (no `refreshToken` probe), defaulting to `claudeAiOauth`. -/
def resolveOauthKey (configData : Json) : String :=
  (oauthKeys.find? (fun k => configData.hasKey k)).getD "claudeAiOauth"

/-- `is_token_expired`: strict comparison `current_time > expires_at`. -/
def is_token_expired (currentMs expiresAt : Int) : Bool :=
  currentMs > expiresAt

/-- `oauth_config.get('expiresAt', 0)` as an integer (non-numeric values are
outside the model; theorems pin the field to numeric-or-absent). -/
def getExpiresAt (oauthConfig : Json) : Int :=
  match oauthConfig.getKey? "expiresAt" with
  | some (.num n) => n
  | _ => 0

/-- The in-memory merge `update_config` applies to the OAuth sub-object
(the `oauth_config.update({...})` block plus the organization/account
assignments), on the sub-object's field list.  All fallback reads
(`oauth_config.get(...)`) read the PRE-update dict, as in the source where
the dict literal is evaluated before `.update`. -/
def mergeOauthFields (oc : List (String × Json)) (resp : TokenResponse)
    (nowMs : Int) : List (String × Json) :=
  let expiresAt : Int := nowMs + (resp.expires_in.getD 3600) * 1000
  let f1 := setFields oc "accessToken" (.str resp.access_token)
  let f2 := setFields f1 "refreshToken"
      (match resp.refresh_token with
       | some rt => .str rt
       | none => (lookupField oc "refreshToken").getD .null)
  let f3 := setFields f2 "expiresAt" (.num expiresAt)
  let f4 := setFields f3 "scopes"
      (match resp.scope with
       | some s => if s != "" then .arr ((pySplitWs s).map .str)
                   else (lookupField oc "scopes").getD (.arr [])
       | none => (lookupField oc "scopes").getD (.arr []))
  let f5 := match resp.organization with
    | some org =>
        setFields (setFields f4 "organizationUuid" (.str org.1))
          "organizationName" (.str org.2)
    | none => f4
  match resp.account with
  | some acct =>
      setFields (setFields f5 "accountUuid" (.str acct.1))
        "emailAddress" (.str acct.2)
  | none => f5

/-- The in-memory document mutation of `update_config` (before any file
write).  Returns `none` when `config_data[oauth_key]` exists but is not a
dict: there `oauth_config.update` raises and `update_config` returns `False`
before writing anything. -/
def update_config (configData : Json) (resp : TokenResponse) (nowMs : Int) :
    Option Json :=
  match configData with
  | .obj _ =>
    let key := resolveOauthKey configData
    match configData.getKey? key with
    | some (.obj fields) =>
        some (configData.setKey key (.obj (mergeOauthFields fields resp nowMs)))
    | none =>
        some (configData.setKey key (.obj (mergeOauthFields [] resp nowMs)))
    | some _ => none
  | _ => none

/-- On-disk state visible to the run: contents of the primary credential file
and of the backup file (the primary path with its last suffix replaced by
`.json.backup`). -/
structure FileSystem where
  primary : Option Json
  backup : Option Json


/-- The two `json.dump` writes at the end of `update_config`: backup first,
then primary; a failed backup write aborts before the primary write. -/
def persistConfig (fs : FileSystem) (doc : Json) (backupOk primaryOk : Bool) :
    FileSystem × Bool :=
  if backupOk then
    let fs1 : FileSystem := ⟨fs.primary, some doc⟩
    if primaryOk then (⟨some doc, fs1.backup⟩, true) else (fs1, false)
  else (fs, false)

/-- Outcome of one `run`: the boolean the method returns (exit code 0 iff
`true`), the number of HTTP refresh attempts, and the final disk state. -/
structure RunResult where
  success : Bool
  httpCalls : Nat
  fs : FileSystem


/-- The tail of `run` once the refresh attempt is committed: one HTTP call
(`none` = HTTP/transport failure), then `update_config` — in-memory merge
followed by the backup and primary writes. -/
def refreshOutcome (configData : Json) (nowMergeMs : Int) (fs : FileSystem)
    (backupOk primaryOk : Bool) : Option TokenResponse → RunResult
  | none => ⟨false, 1, fs⟩
  | some resp =>
    match update_config configData resp nowMergeMs with
    | none => ⟨false, 1, fs⟩
    | some newDoc =>
      let pr := persistConfig fs newDoc backupOk primaryOk
      ⟨pr.2, 1, pr.1⟩

/-- The `run` method from the point where the document is loaded: extraction,
expiry check, refresh-token truthiness check, one HTTP attempt, merge,
backup-then-primary persistence. -/
def run (configData : Json) (force : Bool) (nowCheckMs nowMergeMs : Int)
    (httpResp : Option TokenResponse) (fs : FileSystem)
    (backupOk primaryOk : Bool) : RunResult :=
  match get_oauth_config configData with
  | none => ⟨false, 0, fs⟩
  | some oauthConfig =>
    let expiresAt := getExpiresAt oauthConfig
    let isExpired :=
      if expiresAt > 0 then is_token_expired nowCheckMs expiresAt else true
    if !isExpired && !force then ⟨true, 0, fs⟩
    else if !(((oauthConfig.getKey? "refreshToken").map pyTruthy).getD false) then
      ⟨false, 0, fs⟩
    else
      refreshOutcome configData nowMergeMs fs backupOk primaryOk httpResp

/-- The OAuth-record fields the merge writes for a given response: the four
unconditional ones, plus the organization/account fields when the response
carries those sub-objects. -/
def touchedOauthFields (resp : TokenResponse) : List String :=
  ["accessToken", "refreshToken", "expiresAt", "scopes"]
  ++ (if resp.organization.isSome then ["organizationUuid", "organizationName"] else [])
  ++ (if resp.account.isSome then ["accountUuid", "emailAddress"] else [])

/-- The `scopes` transformation rule exactly as §4.6 of the spec words it
(for comparison with the source-derived merge): split the response's `scope`
string on whitespace if present, else retain the existing value unchanged
(`none` = field absent). -/
def specScopesRule (oc : List (String × Json)) (resp : TokenResponse) :
    Option Json :=
  match resp.scope with
  | some s => some (.arr ((pySplitWs s).map .str))
  | none => lookupField oc "scopes"

/-- The `scopes` value the source actually stores: the split of a truthy
(present and nonempty) `scope` string, else the existing value, defaulting to
the empty array. -/
def sourceScopesValue (oc : List (String × Json)) (resp : TokenResponse) :
    Json :=
  match resp.scope with
  | some s => if s != "" then .arr ((pySplitWs s).map .str)
              else (lookupField oc "scopes").getD (.arr [])
  | none => (lookupField oc "scopes").getD (.arr [])

/-! ### Association-list lemmas -/

theorem lookupField_setFields_self (l : List (String × Json)) (k : String)
    (v : Json) : lookupField (setFields l k v) k = some v := by
  induction l with
  | nil => simp [setFields, lookupField, List.find?]
  | cons p rest ih =>
    obtain ⟨k', v'⟩ := p
    by_cases h : k' = k
    · subst h
      simp [setFields, lookupField, List.find?]
    · simpa [setFields, h, lookupField, List.find?] using ih

theorem lookupField_setFields_ne (l : List (String × Json)) (k k' : String)
    (v : Json) (h : k' ≠ k) :
    lookupField (setFields l k v) k' = lookupField l k' := by
  induction l with
  | nil => simp [setFields, lookupField, List.find?, Ne.symm h]
  | cons p rest ih =>
    obtain ⟨k'', v''⟩ := p
    by_cases h2 : k'' = k
    · subst h2
      simp [setFields, lookupField, List.find?, Ne.symm h]
    · by_cases h3 : k'' = k'
      · subst h3
        simp [setFields, h2, lookupField, List.find?]
      · simpa [setFields, h2, h3, lookupField, List.find?] using ih

theorem getKey?_setKey_ne (d : Json) (k k' : String) (v : Json) (h : k' ≠ k) :
    (d.setKey k v).getKey? k' = d.getKey? k' := by
  cases d <;>
    simp [Json.setKey, Json.getKey?, lookupField_setFields_ne _ _ _ _ h]

theorem getKey?_setKey_self (fields : List (String × Json)) (k : String)
    (v : Json) : ((Json.obj fields).setKey k v).getKey? k = some v := by
  simp [Json.setKey, Json.getKey?, lookupField_setFields_self]

/-! ### Per-field characterization of the merge -/

theorem merge_accessToken (oc : List (String × Json)) (resp : TokenResponse)
    (now : Int) :
    lookupField (mergeOauthFields oc resp now) "accessToken" =
      some (.str resp.access_token) := by
  rcases resp with ⟨a, r, e, s, o, c⟩
  rcases o with _ | ⟨ou, onm⟩ <;> rcases c with _ | ⟨cu, ce⟩ <;>
    simp [mergeOauthFields, lookupField_setFields_ne,
      lookupField_setFields_self]

theorem merge_refreshToken (oc : List (String × Json)) (resp : TokenResponse)
    (now : Int) :
    lookupField (mergeOauthFields oc resp now) "refreshToken" =
      some ((resp.refresh_token.map Json.str).getD
        ((lookupField oc "refreshToken").getD .null)) := by
  rcases resp with ⟨a, r, e, s, o, c⟩
  rcases o with _ | ⟨ou, onm⟩ <;> rcases c with _ | ⟨cu, ce⟩ <;>
    rcases r with _ | r <;>
    simp [mergeOauthFields, lookupField_setFields_ne,
      lookupField_setFields_self]

theorem merge_expiresAt (oc : List (String × Json)) (resp : TokenResponse)
    (now : Int) :
    lookupField (mergeOauthFields oc resp now) "expiresAt" =
      some (.num (now + (resp.expires_in.getD 3600) * 1000)) := by
  rcases resp with ⟨a, r, e, s, o, c⟩
  rcases o with _ | ⟨ou, onm⟩ <;> rcases c with _ | ⟨cu, ce⟩ <;>
    simp [mergeOauthFields, lookupField_setFields_ne,
      lookupField_setFields_self]

theorem merge_scopes (oc : List (String × Json)) (resp : TokenResponse)
    (now : Int) :
    lookupField (mergeOauthFields oc resp now) "scopes" =
      some (sourceScopesValue oc resp) := by
  rcases resp with ⟨a, r, e, s, o, c⟩
  rcases o with _ | ⟨ou, onm⟩ <;> rcases c with _ | ⟨cu, ce⟩ <;>
    simp [mergeOauthFields, sourceScopesValue, lookupField_setFields_ne,
      lookupField_setFields_self]

theorem merge_organization (oc : List (String × Json)) (resp : TokenResponse)
    (now : Int) (ou onm : String) (h : resp.organization = some (ou, onm)) :
    lookupField (mergeOauthFields oc resp now) "organizationUuid" =
        some (.str ou) ∧
    lookupField (mergeOauthFields oc resp now) "organizationName" =
        some (.str onm) := by
  rcases resp with ⟨a, r, e, s, o, c⟩
  cases h
  rcases c with _ | ⟨cu, ce⟩ <;>
    simp [mergeOauthFields, lookupField_setFields_ne,
      lookupField_setFields_self]

theorem merge_account (oc : List (String × Json)) (resp : TokenResponse)
    (now : Int) (cu ce : String) (h : resp.account = some (cu, ce)) :
    lookupField (mergeOauthFields oc resp now) "accountUuid" = some (.str cu) ∧
    lookupField (mergeOauthFields oc resp now) "emailAddress" =
        some (.str ce) := by
  rcases resp with ⟨a, r, e, s, o, c⟩
  cases h
  rcases o with _ | ⟨ou, onm⟩ <;>
    simp [mergeOauthFields, lookupField_setFields_ne,
      lookupField_setFields_self]

theorem merge_untouched (oc : List (String × Json)) (resp : TokenResponse)
    (now : Int) (f : String) (h : f ∉ touchedOauthFields resp) :
    lookupField (mergeOauthFields oc resp now) f = lookupField oc f := by
  rcases resp with ⟨a, r, e, s, o, c⟩
  rcases o with _ | ⟨ou, onm⟩ <;> rcases c with _ | ⟨cu, ce⟩ <;>
    simp only [touchedOauthFields, Option.isSome_some, Option.isSome_none,
      if_true, if_false, List.append_nil, List.mem_append, List.mem_cons,
      List.not_mem_nil, or_false, not_or] at h <;>
    simp_all [mergeOauthFields, lookupField_setFields_ne, Ne.symm]

/-! ### Document-level lemmas about `update_config` -/

theorem getKey?_setKey_of_mem (d : Json) (k : String) (v w : Json)
    (h : d.getKey? k = some w) : (d.setKey k v).getKey? k = some v := by
  cases d
  case obj fields => exact getKey?_setKey_self fields k v
  all_goals simp [Json.getKey?] at h

theorem update_config_frame (d : Json) (resp : TokenResponse) (now : Int)
    (d' : Json) (h : update_config d resp now = some d') (k' : String)
    (hk : k' ≠ resolveOauthKey d) : d'.getKey? k' = d.getKey? k' := by
  simp only [update_config] at h
  split at h
  · split at h
    · cases h
      exact getKey?_setKey_ne _ _ _ _ hk
    · cases h
      exact getKey?_setKey_ne _ _ _ _ hk
    · cases h
  · cases h

theorem update_config_at_key (d : Json) (resp : TokenResponse) (now : Int)
    (fields : List (String × Json))
    (hf : d.getKey? (resolveOauthKey d) = some (.obj fields)) :
    update_config d resp now =
      some (d.setKey (resolveOauthKey d)
        (.obj (mergeOauthFields fields resp now))) := by
  cases d
  case obj l => simp only [update_config, hf]
  all_goals simp [Json.getKey?] at hf

/-- The OAuth record stored at the resolved key after a successful in-memory
merge: the merge of the pre-existing record (empty when the resolved key was
absent, mirroring `self.config_data[oauth_key] = {}`). -/
theorem update_config_oauth_record (d d' : Json) (resp : TokenResponse)
    (now : Int) (h : update_config d resp now = some d') :
    ∃ fields, (d.getKey? (resolveOauthKey d)).getD (.obj []) = .obj fields ∧
      d'.getKey? (resolveOauthKey d) =
        some (.obj (mergeOauthFields fields resp now)) := by
  cases d
  case obj l =>
    simp only [update_config] at h
    split at h
    next fields hm =>
      cases h
      exact ⟨fields, by simp [hm], getKey?_setKey_of_mem _ _ _ _ hm⟩
    next hm =>
      cases h
      exact ⟨[], by simp [hm], getKey?_setKey_self _ _ _⟩
    next => cases h
  all_goals simp [update_config] at h

/-! ### Claim theorems -/

/-- C4 (counterexample): the claim says that when the response carries no
`scope` string the existing `scopes` value is retained unchanged, and in
particular an absent `scopes` field stays absent.  On the source, a record
with no `scopes` field merged with a scope-less response comes out with
`scopes` bound to the empty array (`oauth_config.get('scopes', [])`), not
absent. -/
theorem C4_counterexample :
    lookupField (mergeOauthFields [("refreshToken", .str "R1")]
      ⟨"A2", none, none, none, none, none⟩ 0) "scopes" = some (.arr []) ∧
    lookupField [("refreshToken", .str "R1")] "scopes" = none ∧
    (some (Json.arr []) : Option Json) ≠ none :=
  ⟨rfl, rfl, by simp⟩

/-- C4 (amended): after the merge, `scopes` is bound to the split of the
response's `scope` string when that string is present and nonempty, and
otherwise to the existing `scopes` value DEFAULTING TO THE EMPTY ARRAY when
absent (so an absent `scopes` field becomes `[]` rather than staying
absent); `sourceScopesValue` is exactly that rule. -/
theorem C4_scopes_rule (oc : List (String × Json)) (resp : TokenResponse)
    (now : Int) :
    lookupField (mergeOauthFields oc resp now) "scopes" =
      some (sourceScopesValue oc resp) :=
  merge_scopes oc resp now

/-- C6: a successful response lacking `refresh_token` leaves the stored
`refreshToken` unchanged in the merged record. -/
theorem C6_refreshToken_retained (oc : List (String × Json))
    (resp : TokenResponse) (now : Int) (v : Json)
    (h1 : resp.refresh_token = none)
    (h2 : lookupField oc "refreshToken" = some v) :
    lookupField (mergeOauthFields oc resp now) "refreshToken" = some v := by
  rw [merge_refreshToken, h1, h2]
  rfl

/-- C6 (witness): concrete record with `refreshToken = "R1"`, response with
no `refresh_token`: the merged record still holds `"R1"`. -/
theorem C6_witness :
    lookupField (mergeOauthFields
      [("refreshToken", .str "R1"), ("expiresAt", .num 1)]
      ⟨"A2", none, none, none, none, none⟩ 5) "refreshToken" =
      some (.str "R1") :=
  C6_refreshToken_retained _ _ 5 _ rfl rfl

/-- C7: after a successful in-memory merge, the `expiresAt` stored at the
resolved OAuth key equals the merge-time epoch milliseconds plus
`expires_in` seconds times 1000, with `expires_in` defaulting to 3600 when
the response omits it. -/
theorem C7_expiresAt_formula (d d' : Json) (resp : TokenResponse) (now : Int)
    (h : update_config d resp now = some d') :
    (d'.getKey? (resolveOauthKey d)).bind (fun oc => oc.getKey? "expiresAt") =
      some (.num (now + (resp.expires_in.getD 3600) * 1000)) := by
  obtain ⟨fields, -, hrec⟩ := update_config_oauth_record d d' resp now h
  rw [hrec]
  simpa [Json.getKey?] using merge_expiresAt fields resp now

/-- C7 (witness): the spec's own example: `expires_in = 7200` at merge time
1000 ms yields `expiresAt = 1000 + 7,200,000 = 7,201,000`. -/
theorem C7_witness :
    Option.bind
      (Json.getKey?
        (Json.obj [("claudeAiOauth", .obj
          [("refreshToken", .str "R1"), ("accessToken", .str "A2"),
           ("expiresAt", .num 7201000), ("scopes", .arr [])])])
        (resolveOauthKey (.obj [("claudeAiOauth", .obj
          [("refreshToken", .str "R1")])])))
      (fun oc => oc.getKey? "expiresAt") = some (.num 7201000) :=
  C7_expiresAt_formula
    (.obj [("claudeAiOauth", .obj [("refreshToken", .str "R1")])])
    (.obj [("claudeAiOauth", .obj
      [("refreshToken", .str "R1"), ("accessToken", .str "A2"),
       ("expiresAt", .num 7201000), ("scopes", .arr [])])])
    ⟨"A2", none, some 7200, none, none, none⟩ 1000 rfl

/-- C1 (counterexample): with `claudeAiOauth` present but lacking
`refreshToken` and `oauthAccount` holding the refresh token, extraction
returns the `oauthAccount` sub-object, yet the persister resolves and
mutates `claudeAiOauth`: the updated document keeps `oauthAccount`
byte-identical and rewrites `claudeAiOauth`.  So the persister does NOT
update the extracted key. -/
theorem C1_counterexample :
    extractedOauthKey (.obj [("claudeAiOauth", .obj []),
      ("oauthAccount", .obj [("refreshToken", .str "R1")])]) =
        some "oauthAccount" ∧
    resolveOauthKey (.obj [("claudeAiOauth", .obj []),
      ("oauthAccount", .obj [("refreshToken", .str "R1")])]) =
        "claudeAiOauth" ∧
    ("claudeAiOauth" : String) ≠ "oauthAccount" ∧
    update_config (.obj [("claudeAiOauth", .obj []),
      ("oauthAccount", .obj [("refreshToken", .str "R1")])])
      ⟨"A2", none, none, none, none, none⟩ 0 =
    some (.obj [("claudeAiOauth", .obj
      [("accessToken", .str "A2"), ("refreshToken", .null),
       ("expiresAt", .num 3600000), ("scopes", .arr [])]),
      ("oauthAccount", .obj [("refreshToken", .str "R1")])]) :=
  ⟨rfl, rfl, by decide, rfl⟩

/-- C1 (amended): the persister updates the first key in priority order that
is merely PRESENT in the document (`resolveOauthKey`), regardless of whether
its sub-object contains `refreshToken`; this coincides with the key whose
sub-object extraction returned precisely when the first present key's
sub-object does contain `refreshToken`. -/
theorem C1_resolved_matches_extracted (d : Json) (k : String) (sub : Json)
    (hfind : oauthKeys.find? (fun k2 => d.hasKey k2) = some k)
    (hsub : d.getKey? k = some sub)
    (hrt : sub.hasKey "refreshToken" = true) :
    resolveOauthKey d = k ∧ extractedOauthKey d = some k := by
  refine ⟨by simp [resolveOauthKey, hfind], ?_⟩
  rcases h1 : d.getKey? "claudeAiOauth" with _ | v1 <;>
  rcases h2 : d.getKey? "oauthAccount" with _ | v2 <;>
  rcases h3 : d.getKey? "oauth" with _ | v3 <;>
  simp_all [extractedOauthKey, resolveOauthKey, oauthKeys, List.find?,
    Json.hasKey]

/-- C1 (witness): when `claudeAiOauth` is present with a `refreshToken`, the
resolved key and the extracted key agree. -/
theorem C1_witness :
    resolveOauthKey (.obj [("claudeAiOauth",
        .obj [("refreshToken", .str "R1")])]) = "claudeAiOauth" ∧
    extractedOauthKey (.obj [("claudeAiOauth",
        .obj [("refreshToken", .str "R1")])]) = some "claudeAiOauth" :=
  C1_resolved_matches_extracted
    (.obj [("claudeAiOauth", .obj [("refreshToken", .str "R1")])])
    "claudeAiOauth" (.obj [("refreshToken", .str "R1")]) rfl rfl rfl

/-- A run that passes extraction, is expired-or-forced, and holds a truthy
`refreshToken` proceeds to the HTTP attempt and the persistence step. -/
theorem run_refresh_branch (d oc : Json) (force : Bool) (nc nm : Int)
    (httpResp : Option TokenResponse) (fs : FileSystem) (bok pok : Bool)
    (hoc : get_oauth_config d = some oc)
    (hexp : force = true ∨ getExpiresAt oc ≤ 0 ∨ nc > getExpiresAt oc)
    (hrt : ((oc.getKey? "refreshToken").map pyTruthy).getD false = true) :
    run d force nc nm httpResp fs bok pok =
      refreshOutcome d nm fs bok pok httpResp := by
  have hgate :
      ((!(if getExpiresAt oc > 0 then is_token_expired nc (getExpiresAt oc)
          else true)) && !force) = false := by
    rcases hexp with hf | he | hlt
    · subst hf
      simp
    · rw [if_neg (by omega)]
      simp
    · by_cases h0 : getExpiresAt oc > 0
      · rw [if_pos h0]
        simp only [is_token_expired, Bool.and_eq_false_iff]
        left
        simpa using hlt
      · rw [if_neg h0]
        simp
  simp only [run, hoc, hgate, hrt, Bool.false_eq_true, if_false, not_true,
    Bool.not_true, Bool.false_eq_true, if_false]

/-- C3 (counterexample): the claim includes the boundary `expiresAt =
current time` (it says "less than or equal"), but the source's expiry test
is strict (`current_time > expires_at`), so at `expiresAt = now = 5000`
with `force` unset the run makes ZERO HTTP calls (and exits 0), not exactly
one. -/
theorem C3_counterexample :
    getExpiresAt (.obj [("refreshToken", .str "R1"),
      ("expiresAt", .num 5000)]) = 5000 ∧
    ((5000 : Int) ≤ 5000) ∧
    (run (.obj [("claudeAiOauth", .obj [("refreshToken", .str "R1"),
        ("expiresAt", .num 5000)])]) false 5000 5000
      (some ⟨"A2", none, none, none, none, none⟩)
      ⟨some .null, none⟩ true true).httpCalls = 0 :=
  ⟨rfl, by decide, rfl⟩

/-- C3 (amended): in a run that passed extraction and whose stored
`refreshToken` is truthy, when the stored `expiresAt` is absent/zero (more
generally `≤ 0` after the `get('expiresAt', 0)` default) or STRICTLY less
than the current epoch-millisecond time, exactly one HTTP refresh attempt is
made, regardless of the force flag and of the attempt's outcome. -/
theorem C3_expired_exactly_one_call (d oc : Json) (force : Bool) (nc nm : Int)
    (httpResp : Option TokenResponse) (fs : FileSystem) (bok pok : Bool)
    (hoc : get_oauth_config d = some oc)
    (hexp : getExpiresAt oc ≤ 0 ∨ nc > getExpiresAt oc)
    (hrt : ((oc.getKey? "refreshToken").map pyTruthy).getD false = true) :
    (run d force nc nm httpResp fs bok pok).httpCalls = 1 := by
  rw [run_refresh_branch d oc force nc nm httpResp fs bok pok hoc
    (Or.inr hexp) hrt]
  rcases httpResp with _ | resp
  · rfl
  · simp only [refreshOutcome]
    cases update_config d resp nm <;> rfl

/-- C3 (witness): expired token (`expiresAt = 1000 < now = 2000`), force
unset, failing HTTP attempt: exactly one call. -/
theorem C3_witness :
    (run (.obj [("claudeAiOauth", .obj [("refreshToken", .str "R1"),
        ("expiresAt", .num 1000)])]) false 2000 2000 none
      ⟨some .null, none⟩ true true).httpCalls = 1 :=
  C3_expired_exactly_one_call
    (.obj [("claudeAiOauth", .obj [("refreshToken", .str "R1"),
      ("expiresAt", .num 1000)])])
    (.obj [("refreshToken", .str "R1"), ("expiresAt", .num 1000)])
    false 2000 2000 none ⟨some .null, none⟩ true true rfl
    (Or.inr (by decide)) rfl

/-- C8: a run whose stored `expiresAt` is a positive epoch-millisecond value
strictly greater than the (nonnegative) current time, with the force flag
unset, returns success without any HTTP call and with the disk untouched. -/
theorem C8_valid_token_noop (d oc : Json) (e nc nm : Int)
    (httpResp : Option TokenResponse) (fs : FileSystem) (bok pok : Bool)
    (hoc : get_oauth_config d = some oc)
    (he : oc.getKey? "expiresAt" = some (.num e))
    (hgt : nc < e) (hnn : 0 ≤ nc) :
    run d false nc nm httpResp fs bok pok = ⟨true, 0, fs⟩ := by
  have hE : getExpiresAt oc = e := by simp [getExpiresAt, he]
  have hexp : is_token_expired nc e = false := by
    simp only [is_token_expired, decide_eq_false_iff_not]
    omega
  simp only [run, hoc, hE, if_pos (by omega : e > 0), hexp, Bool.not_false,
    Bool.and_self, if_pos]

/-- C8 (witness): `expiresAt = 9999 > now = 100`, no force: the run returns
success, makes no HTTP call and leaves the file system unchanged. -/
theorem C8_witness :
    run (.obj [("claudeAiOauth", .obj [("refreshToken", .str "R1"),
        ("expiresAt", .num 9999)])]) false 100 100 none
      ⟨some .null, none⟩ true true = ⟨true, 0, ⟨some .null, none⟩⟩ :=
  C8_valid_token_noop
    (.obj [("claudeAiOauth", .obj [("refreshToken", .str "R1"),
      ("expiresAt", .num 9999)])])
    (.obj [("refreshToken", .str "R1"), ("expiresAt", .num 9999)])
    9999 100 100 none ⟨some .null, none⟩ true true rfl rfl
    (by decide) (by decide)

/-- C5: when the run reaches persistence (extraction passed,
expired-or-forced, truthy refresh token, HTTP success, merge succeeded) but
the backup write fails, the whole file-system state is unchanged — in
particular the primary file keeps its pre-run contents — and the run
reports failure (exit code 1). -/
theorem C5_backup_failure_preserves_primary (d oc newDoc : Json)
    (force : Bool) (nc nm : Int) (resp : TokenResponse) (fs : FileSystem)
    (pok : Bool)
    (hoc : get_oauth_config d = some oc)
    (hexp : force = true ∨ getExpiresAt oc ≤ 0 ∨ nc > getExpiresAt oc)
    (hrt : ((oc.getKey? "refreshToken").map pyTruthy).getD false = true)
    (hupd : update_config d resp nm = some newDoc) :
    run d force nc nm (some resp) fs false pok = ⟨false, 1, fs⟩ := by
  rw [run_refresh_branch d oc force nc nm (some resp) fs false pok hoc
    hexp hrt]
  simp only [refreshOutcome, hupd, persistConfig]
  rfl

/-- C5 (witness): concrete expired document, successful response, failing
backup write: result is failure with the file system exactly as before. -/
theorem C5_witness :
    run (.obj [("claudeAiOauth", .obj [("refreshToken", .str "R1"),
        ("expiresAt", .num 1000)])]) false 2000 2000
      (some ⟨"A2", none, some 3600, none, none, none⟩)
      ⟨some .null, none⟩ false true =
    ⟨false, 1, ⟨some .null, none⟩⟩ :=
  C5_backup_failure_preserves_primary
    (.obj [("claudeAiOauth", .obj [("refreshToken", .str "R1"),
      ("expiresAt", .num 1000)])])
    (.obj [("refreshToken", .str "R1"), ("expiresAt", .num 1000)])
    (.obj [("claudeAiOauth", .obj [("refreshToken", .str "R1"),
      ("expiresAt", .num 3602000), ("accessToken", .str "A2"),
      ("scopes", .arr [])])])
    false 2000 2000 ⟨"A2", none, some 3600, none, none, none⟩
    ⟨some .null, none⟩ true rfl (Or.inr (Or.inr (by decide))) rfl rfl

/-- C2 (counterexample): the merge mutates the document in memory BEFORE the
backup is written, and the backup serializes the mutated document.  With the
spec's own end-to-end scenario (stored `refreshToken "R1"`, `expiresAt
1000`, response `access_token "A2"`, `expires_in 3600`, time 2000 ms) the
backup file holds a document whose OAuth record contains `accessToken "A2"`
while the original pre-refresh document contains no `accessToken` at all —
so the backup is not a snapshot of the pre-refresh document. -/
theorem C2_counterexample :
    (run (.obj [("claudeAiOauth", .obj [("refreshToken", .str "R1"),
        ("expiresAt", .num 1000)])]) false 2000 2000
      (some ⟨"A2", none, some 3600, none, none, none⟩)
      ⟨some (.obj [("claudeAiOauth", .obj [("refreshToken", .str "R1"),
        ("expiresAt", .num 1000)])]), none⟩ true true).fs.backup =
      some (.obj [("claudeAiOauth", .obj [("refreshToken", .str "R1"),
        ("expiresAt", .num 3602000), ("accessToken", .str "A2"),
        ("scopes", .arr [])])]) ∧
    Option.bind (Json.getKey? (.obj [("claudeAiOauth", .obj
        [("refreshToken", .str "R1"), ("expiresAt", .num 1000)])])
        "claudeAiOauth") (fun oc => oc.getKey? "accessToken") = none ∧
    (run (.obj [("claudeAiOauth", .obj [("refreshToken", .str "R1"),
        ("expiresAt", .num 1000)])]) false 2000 2000
      (some ⟨"A2", none, some 3600, none, none, none⟩)
      ⟨some (.obj [("claudeAiOauth", .obj [("refreshToken", .str "R1"),
        ("expiresAt", .num 1000)])]), none⟩ true true).fs.backup ≠
      some (.obj [("claudeAiOauth", .obj [("refreshToken", .str "R1"),
        ("expiresAt", .num 1000)])]) := by
  refine ⟨rfl, rfl, fun h => ?_⟩
  have h2 : (some (Json.str "A2") : Option Json) = none :=
    congrArg (fun ob : Option Json => Option.bind ob (fun doc =>
      Option.bind (doc.getKey? "claudeAiOauth")
        (fun oc => oc.getKey? "accessToken"))) h
  cases h2

/-- C2 (amended): after a run that reaches persistence and whose backup
write succeeds, the backup file (at the path with the last suffix replaced
by `.json.backup`) contains the ALREADY-MERGED document — the same document
written to the primary file — and it is written before the primary file:
the backup holds the merged document whether or not the primary write
succeeds, while the primary is overwritten only when its own write
succeeds. -/
theorem C2_backup_is_merged_snapshot (d oc newDoc : Json) (force : Bool)
    (nc nm : Int) (resp : TokenResponse) (fs : FileSystem) (pok : Bool)
    (hoc : get_oauth_config d = some oc)
    (hexp : force = true ∨ getExpiresAt oc ≤ 0 ∨ nc > getExpiresAt oc)
    (hrt : ((oc.getKey? "refreshToken").map pyTruthy).getD false = true)
    (hupd : update_config d resp nm = some newDoc) :
    (run d force nc nm (some resp) fs true pok).fs.backup = some newDoc ∧
    (run d force nc nm (some resp) fs true pok).fs.primary =
      (if pok then some newDoc else fs.primary) := by
  rw [run_refresh_branch d oc force nc nm (some resp) fs true pok hoc
    hexp hrt]
  simp only [refreshOutcome, hupd, persistConfig]
  cases pok <;> simp

/-- C2 (witness): expired document, successful merge, failing primary write:
the backup already holds the merged document and the primary is unchanged. -/
theorem C2_witness :
    (run (.obj [("claudeAiOauth", .obj [("refreshToken", .str "R1"),
        ("expiresAt", .num 1000)])]) false 2000 2000
      (some ⟨"A2", none, some 3600, none, none, none⟩)
      ⟨some .null, none⟩ true false).fs.backup =
      some (.obj [("claudeAiOauth", .obj [("refreshToken", .str "R1"),
        ("expiresAt", .num 3602000), ("accessToken", .str "A2"),
        ("scopes", .arr [])])]) ∧
    (run (.obj [("claudeAiOauth", .obj [("refreshToken", .str "R1"),
        ("expiresAt", .num 1000)])]) false 2000 2000
      (some ⟨"A2", none, some 3600, none, none, none⟩)
      ⟨some .null, none⟩ true false).fs.primary = some .null :=
  C2_backup_is_merged_snapshot
    (.obj [("claudeAiOauth", .obj [("refreshToken", .str "R1"),
      ("expiresAt", .num 1000)])])
    (.obj [("refreshToken", .str "R1"), ("expiresAt", .num 1000)])
    (.obj [("claudeAiOauth", .obj [("refreshToken", .str "R1"),
      ("expiresAt", .num 3602000), ("accessToken", .str "A2"),
      ("scopes", .arr [])])])
    false 2000 2000 ⟨"A2", none, some 3600, none, none, none⟩
    ⟨some .null, none⟩ false rfl (Or.inr (Or.inr (by decide))) rfl rfl

/-- C10: when a run reaches persistence and both writes succeed, the backup
file and the primary file hold the SAME document: the merged (post-refresh)
document, because the in-memory merge happens before either write. -/
theorem C10_backup_equals_primary (d oc newDoc : Json) (force : Bool)
    (nc nm : Int) (resp : TokenResponse) (fs : FileSystem)
    (hoc : get_oauth_config d = some oc)
    (hexp : force = true ∨ getExpiresAt oc ≤ 0 ∨ nc > getExpiresAt oc)
    (hrt : ((oc.getKey? "refreshToken").map pyTruthy).getD false = true)
    (hupd : update_config d resp nm = some newDoc) :
    run d force nc nm (some resp) fs true true =
      ⟨true, 1, ⟨some newDoc, some newDoc⟩⟩ := by
  rw [run_refresh_branch d oc force nc nm (some resp) fs true true hoc
    hexp hrt]
  simp only [refreshOutcome, hupd, persistConfig]
  rfl

/-- C10 (witness): successful end-to-end refresh: backup and primary both
hold the merged document. -/
theorem C10_witness :
    run (.obj [("claudeAiOauth", .obj [("refreshToken", .str "R1"),
        ("expiresAt", .num 1000)])]) false 2000 2000
      (some ⟨"A2", none, some 3600, none, none, none⟩)
      ⟨some .null, none⟩ true true =
    ⟨true, 1, ⟨some (.obj [("claudeAiOauth", .obj
        [("refreshToken", .str "R1"), ("expiresAt", .num 3602000),
         ("accessToken", .str "A2"), ("scopes", .arr [])])]),
      some (.obj [("claudeAiOauth", .obj
        [("refreshToken", .str "R1"), ("expiresAt", .num 3602000),
         ("accessToken", .str "A2"), ("scopes", .arr [])])])⟩⟩ :=
  C10_backup_equals_primary
    (.obj [("claudeAiOauth", .obj [("refreshToken", .str "R1"),
      ("expiresAt", .num 1000)])])
    (.obj [("refreshToken", .str "R1"), ("expiresAt", .num 1000)])
    (.obj [("claudeAiOauth", .obj [("refreshToken", .str "R1"),
      ("expiresAt", .num 3602000), ("accessToken", .str "A2"),
      ("scopes", .arr [])])])
    false 2000 2000 ⟨"A2", none, some 3600, none, none, none⟩
    ⟨some .null, none⟩ rfl (Or.inr (Or.inr (by decide))) rfl rfl

/-- C9 (counterexample): the claim requires the touched fields to match the
§4.6 transformation rules, whose `scopes` rule (`specScopesRule`) retains
the existing value unchanged when the response carries no `scope`.  On a
record with no stored `scopes` and a scope-less response, the source stores
`scopes = []` while the §4.6 rule leaves the field absent, so the claim as
stated fails at this input. -/
theorem C9_counterexample :
    lookupField (mergeOauthFields [("refreshToken", .str "R2")]
      ⟨"A3", none, none, none, none, none⟩ 0) "scopes" = some (.arr []) ∧
    specScopesRule [("refreshToken", .str "R2")]
      ⟨"A3", none, none, none, none, none⟩ = none ∧
    (some (Json.arr []) : Option Json) ≠ none :=
  ⟨rfl, rfl, by simp⟩

/-- C9 (amended): after a successful in-memory merge, (1) every top-level
key other than the resolved OAuth key is unchanged; (2) the resolved key
holds the merge of its previous record; (3) every field of that record
outside `touchedOauthFields` is unchanged; and (4) the touched fields match
the source's transformation rules — which agree with §4.6 except that the
`scopes` fallback defaults to the empty array (`sourceScopesValue`) instead
of retaining an absent field. -/
theorem C9_frame_and_touched_fields (d d' : Json) (resp : TokenResponse)
    (now : Int) (fields : List (String × Json))
    (hupd : update_config d resp now = some d')
    (hf : d.getKey? (resolveOauthKey d) = some (.obj fields)) :
    (∀ k2, k2 ≠ resolveOauthKey d → d'.getKey? k2 = d.getKey? k2) ∧
    d'.getKey? (resolveOauthKey d) =
      some (.obj (mergeOauthFields fields resp now)) ∧
    (∀ f, f ∉ touchedOauthFields resp →
      lookupField (mergeOauthFields fields resp now) f = lookupField fields f) ∧
    lookupField (mergeOauthFields fields resp now) "accessToken" =
      some (.str resp.access_token) ∧
    lookupField (mergeOauthFields fields resp now) "refreshToken" =
      some ((resp.refresh_token.map Json.str).getD
        ((lookupField fields "refreshToken").getD .null)) ∧
    lookupField (mergeOauthFields fields resp now) "expiresAt" =
      some (.num (now + (resp.expires_in.getD 3600) * 1000)) ∧
    lookupField (mergeOauthFields fields resp now) "scopes" =
      some (sourceScopesValue fields resp) ∧
    (∀ ou onm, resp.organization = some (ou, onm) →
      lookupField (mergeOauthFields fields resp now) "organizationUuid" =
          some (.str ou) ∧
      lookupField (mergeOauthFields fields resp now) "organizationName" =
          some (.str onm)) ∧
    (∀ cu ce, resp.account = some (cu, ce) →
      lookupField (mergeOauthFields fields resp now) "accountUuid" =
          some (.str cu) ∧
      lookupField (mergeOauthFields fields resp now) "emailAddress" =
          some (.str ce)) := by
  obtain ⟨fields2, hget, hrec⟩ := update_config_oauth_record d d' resp now hupd
  have hff : fields2 = fields := by
    rw [hf] at hget
    simpa using hget.symm
  subst hff
  exact ⟨fun k2 hk => update_config_frame d resp now d' hupd k2 hk, hrec,
    fun f hf2 => merge_untouched fields2 resp now f hf2,
    merge_accessToken fields2 resp now, merge_refreshToken fields2 resp now,
    merge_expiresAt fields2 resp now, merge_scopes fields2 resp now,
    fun ou onm h => merge_organization fields2 resp now ou onm h,
    fun cu ce h => merge_account fields2 resp now cu ce h⟩

/-- C9 (witness): a document with an unrelated top-level key `userId` and a
minimal OAuth record: after the merge the unrelated key is unchanged. -/
theorem C9_witness :
    Json.getKey? (.obj [("userId", .str "u-1"), ("claudeAiOauth", .obj
      [("refreshToken", .str "R"), ("accessToken", .str "A"),
       ("expiresAt", .num 3600000), ("scopes", .arr [])])]) "userId" =
    Json.getKey? (.obj [("userId", .str "u-1"), ("claudeAiOauth", .obj
      [("refreshToken", .str "R")])]) "userId" :=
  (C9_frame_and_touched_fields
    (.obj [("userId", .str "u-1"),
      ("claudeAiOauth", .obj [("refreshToken", .str "R")])])
    (.obj [("userId", .str "u-1"), ("claudeAiOauth", .obj
      [("refreshToken", .str "R"), ("accessToken", .str "A"),
       ("expiresAt", .num 3600000), ("scopes", .arr [])])])
    ⟨"A", none, none, none, none, none⟩ 0 [("refreshToken", .str "R")]
    rfl rfl).1 "userId" (by decide)

end ClaudeTokenRefresh
